import Mathlib

/-!
Verification development for the gemini-chatbot relay repository.

The repository has two source components:
* a backend Express handler (`POST /api/chat`) that validates the request
  body, maps chat messages to the external generation API shape, calls the
  API once, and extracts a text reply defensively (`extractText`);
* a browser UI controller (`public/script.js`) that renders chat bubbles,
  posts the user message to the relay, and mutates a placeholder bubble
  with the outcome.

JavaScript runtime values are modelled by the inductive `JsValue`
(undefined, null, booleans, integers, strings, arrays, objects).  Property
access, optional chaining, nullish coalescing, truthiness, string
coercion and JSON serialization are modelled by explicit functions whose
semantics follow JavaScript on the value forms that occur here.  Code that
can throw is modelled with `Except String`; the carried message models
`error.message` (exact wording of engine-generated TypeError messages is
abstracted, which no theorem depends on).
-/

/-- A JavaScript runtime value, as far as the chat relay manipulates them.
Numbers are modelled as integers: the code never computes arithmetic on
them, they only flow through as opaque data. -/
inductive JsValue where
  | vUndefined : JsValue
  | vNull : JsValue
  | vBool (b : Bool) : JsValue
  | vNum (n : Int) : JsValue
  | vStr (s : String) : JsValue
  | vArr (elems : List JsValue) : JsValue
  | vObj (fields : List (String × JsValue)) : JsValue

namespace JsValue

/-- `v == null` in the loose sense: the two nullish JavaScript values. -/
def isNullish : JsValue → Bool
  | vUndefined => true
  | vNull => true
  | _ => false

/-- Whether the value is a string. -/
def isString : JsValue → Bool
  | vStr _ => true
  | _ => false

/-- JavaScript truthiness (`if (v)`).  For `vNum`, zero is falsy. -/
def truthy : JsValue → Bool
  | vUndefined => false
  | vNull => false
  | vBool b => b
  | vNum n => n != 0
  | vStr s => s != ""
  | vArr _ => true
  | vObj _ => true

/-- First binding of key `k` in an object field list, `undefined` if absent. -/
def lookupField : List (String × JsValue) → String → JsValue
  | [], _ => vUndefined
  | (k, v) :: rest, key => if k = key then v else lookupField rest key

/-- Plain property access `v.k` (no optional chaining): throws a TypeError
on the nullish values, yields `undefined` for absent properties and for
property access on boxed primitives and arrays (no built-in properties of
those are used by the code under study). -/
def getFieldEx : JsValue → String → Except String JsValue
  | vUndefined, _ => .error "TypeError: cannot read properties of undefined"
  | vNull, _ => .error "TypeError: cannot read properties of null"
  | vObj fields, key => .ok (lookupField fields key)
  | _, _ => .ok vUndefined

/-- Optional-chained property access `v?.k`: nullish receivers short to
`undefined` instead of throwing. -/
def optField (v : JsValue) (key : String) : JsValue :=
  match v with
  | vUndefined => vUndefined
  | vNull => vUndefined
  | vObj fields => lookupField fields key
  | _ => vUndefined

/-- Optional-chained index access `v?.[0]`: first array element, property
"0" of an object, first character of a string, otherwise `undefined`. -/
def optIndexZero : JsValue → JsValue
  | vArr (x :: _) => x
  | vObj fields => lookupField fields "0"
  | vStr s => if s = "" then vUndefined else vStr (String.singleton (s.get 0))
  | _ => vUndefined

/-- Nullish coalescing `a ?? b`. -/
def coalesce (a b : JsValue) : JsValue :=
  if a.isNullish then b else a

/-- String quoting for the JSON serializer model (escaping of special
characters inside the string is abstracted; no theorem depends on it). -/
def jsonQuote (s : String) : String := "\"" ++ s ++ "\""

mutual

/-- Model of `JSON.stringify` on a defined value.  The source calls
`JSON.stringify(resp, null, 2)`; the 2-space pretty-printing layout is
abstracted to a compact rendering, which no theorem depends on. -/
def jsonSerialize : JsValue → String
  | vUndefined => "null"
  | vNull => "null"
  | vBool true => "true"
  | vBool false => "false"
  | vNum n => toString n
  | vStr s => jsonQuote s
  | vArr xs => "[" ++ String.intercalate "," (jsonSerializeElems xs) ++ "]"
  | vObj fs => "\x7b" ++ String.intercalate "," (jsonSerializeFields fs) ++ "\x7d"

/-- Array elements: `undefined` serializes as `null` inside arrays. -/
def jsonSerializeElems : List JsValue → List String
  | [] => []
  | x :: xs => jsonSerialize x :: jsonSerializeElems xs

/-- Object fields: fields holding `undefined` are omitted. -/
def jsonSerializeFields : List (String × JsValue) → List String
  | [] => []
  | (_, vUndefined) :: fs => jsonSerializeFields fs
  | (k, v) :: fs => (jsonQuote k ++ ":" ++ jsonSerialize v) :: jsonSerializeFields fs

end

/-- `JSON.stringify(v, null, 2)` as a JavaScript expression: it evaluates
to `undefined` (not a string) when the argument is `undefined`, and to a
string for every other `JsValue`. -/
def jsonStringifyFmt : JsValue → JsValue
  | vUndefined => vUndefined
  | v => vStr (jsonSerialize v)

mutual

/-- JavaScript `String(v)` coercion, as applied by a DOM `textContent`
assignment. -/
def jsToString : JsValue → String
  | vUndefined => "undefined"
  | vNull => "null"
  | vBool true => "true"
  | vBool false => "false"
  | vNum n => toString n
  | vStr s => s
  | vArr xs => String.intercalate "," (jsToStringElems xs)
  | vObj _ => "[object Object]"

/-- Array coercion joins elements with commas; nullish elements render
empty. -/
def jsToStringElems : List JsValue → List String
  | [] => []
  | vUndefined :: xs => "" :: jsToStringElems xs
  | vNull :: xs => "" :: jsToStringElems xs
  | x :: xs => jsToString x :: jsToStringElems xs

end

end JsValue

open JsValue

/-! ## Backend relay (src/unnamed/part_000) -/

/-- `const GEMINI_MODEL = 'gemini-2.5-flash';` -/
def GEMINI_MODEL : String := "gemini-2.5-flash"

/-- `extractText(resp)` from the backend source:
the chained optional lookups joined by nullish coalescing, with
`JSON.stringify(resp, null, 2)` as final fallback.  The source wraps the
body in try/catch, but every access in it is optional-chained and
`JSON.stringify` cannot throw on the values of this model (no cyclic
structures, no BigInt), so the catch branch is unreachable in the
embedding. -/
def extractText (resp : JsValue) : JsValue :=
  let text :=
    coalesce
      (coalesce
        (optField
          (optIndexZero
            (optField
              (optField
                (optIndexZero (optField (optField resp "response") "candidate"))
                "content")
              "part"))
          "text")
        (optField
          (optIndexZero
            (optField
              (optField (optIndexZero (optField resp "candidate")) "content")
              "parts"))
          "text"))
      (optField
        (optField (optIndexZero (optField (optField resp "response") "candidates")) "content")
        "text")
  coalesce text (jsonStringifyFmt resp)

/-- Extraction path 1 of the spec: `response.candidate[0].content.part[0].text`,
read with optional chaining from the raw value. -/
def pathOne (resp : JsValue) : JsValue :=
  optField
    (optIndexZero
      (optField
        (optField (optIndexZero (optField (optField resp "response") "candidate")) "content")
        "part"))
    "text"

/-- Extraction path 2 of the spec: `candidate[0].content.parts[0].text`. -/
def pathTwo (resp : JsValue) : JsValue :=
  optField
    (optIndexZero
      (optField (optField (optIndexZero (optField resp "candidate")) "content") "parts"))
    "text"

/-- Extraction path 3 of the spec: `response.candidates[0].content.text`. -/
def pathThree (resp : JsValue) : JsValue :=
  optField (optField (optIndexZero (optField (optField resp "response") "candidates")) "content") "text"

/-- The extraction policy as the spec words it: attempt the three paths in
priority order, return the first defined (non-nullish) value, otherwise
serialize the whole raw response. -/
def specExtract (resp : JsValue) : JsValue :=
  if (pathOne resp).isNullish = false then pathOne resp
  else if (pathTwo resp).isNullish = false then pathTwo resp
  else if (pathThree resp).isNullish = false then pathThree resp
  else jsonStringifyFmt resp

/-- One message mapped to the external API turn shape:
`{ role: msg.role, parts: [{ text: msg.content }] }`.  Plain (non-optional)
property access throws on nullish elements, hence `Except`. -/
def mapMessage (msg : JsValue) : Except String JsValue := do
  let role ← msg.getFieldEx "role"
  let content ← msg.getFieldEx "content"
  pure (vObj [("role", role), ("parts", vArr [vObj [("text", content)]])])

/-- The turn a well-behaved element is mapped to, written from the spec:
the sender role paired with a singleton parts list holding the content
(optional-access variant; agrees with `mapMessage` off nullish values). -/
def turnOf (msg : JsValue) : JsValue :=
  vObj [("role", optField msg "role"), ("parts", vArr [vObj [("text", optField msg "content")]])]

/-- One recorded call to `ai.models.generateContent`. -/
structure GenerateContentRequest where
  model : String
  contents : List JsValue

/-- The HTTP response the handler sends (status code and JSON body). -/
structure HttpResponse where
  status : Nat
  body : JsValue

/-- Everything observable about one run of the handler: the HTTP response,
the external API calls issued, and the `console.error` log lines. -/
structure HandlerTrace where
  response : HttpResponse
  apiCalls : List GenerateContentRequest
  logs : List String

/-- The message of `new Error('Invalid messages format. Expected an array.')`. -/
def invalidMessagesMsg : String := "Invalid messages format. Expected an array."

/-- The catch branch: `console.error('Error in /api/chat:', error)` then
`res.status(500).json({ error: error.message || 'Internal Server Error' })`,
with `calls` the API calls issued before the throw. -/
def catchBranch (calls : List GenerateContentRequest) (errMsg : String) : HandlerTrace :=
  { response :=
      { status := 500
        body := vObj [("error", vStr (if errMsg = "" then "Internal Server Error" else errMsg))] }
    apiCalls := calls
    logs := ["Error in /api/chat: " ++ errMsg] }

/-- The `POST /api/chat` handler.  `api` models the behaviour of
`await ai.models.generateContent({ model, contents })` as a function of the
mapped contents: `.ok resp` is a resolved response value, `.error m` is a
rejection whose error has message `m`.  The call is recorded in the trace
whether or not it rejects. -/
def postApiChat (api : List JsValue → Except String JsValue) (body : JsValue) : HandlerTrace :=
  match body.getFieldEx "messages" with
  | .error e => catchBranch [] e
  | .ok messages =>
    match messages with
    | vArr msgs =>
      match msgs.mapM mapMessage with
      | .error e => catchBranch [] e
      | .ok contents =>
        let call : GenerateContentRequest := { model := GEMINI_MODEL, contents := contents }
        match api contents with
        | .error e => catchBranch [call] e
        | .ok resp =>
          { response := { status := 200, body := vObj [("result", extractText resp)] }
            apiCalls := [call]
            logs := [] }
    | _ => catchBranch [] invalidMessagesMsg

/-- Whether the request body carries a `messages` field that is an array
(the shape `Array.isArray` accepts after the destructuring succeeds). -/
def messagesIsArray (body : JsValue) : Bool :=
  match body.getFieldEx "messages" with
  | .ok (vArr _) => true
  | _ => false

/-! ## Chat UI controller (src/public/script.js) -/

/-- One chat bubble: its text content and its sender class
(the second argument of `addMessageToChatBox`). -/
structure Bubble where
  text : String
  sender : String
deriving Repr, DecidableEq

/-- The DOM state the controller manipulates: the ordered list of bubbles
in the chat box and the current input field value.  Scrolling is a pure
presentation effect and is not modelled. -/
structure UiState where
  chatBox : List Bubble
  inputValue : String
deriving Repr, DecidableEq

/-- How the `fetch('/api/chat', ...)` promise settles:
a response with its HTTP status and parsed JSON body, or a transport-level
rejection. -/
inductive FetchOutcome where
  | response (status : Nat) (body : JsValue) : FetchOutcome
  | networkError : FetchOutcome

/-- The placeholder text `'Thinking...'`. -/
def thinkingText : String := "Thinking..."

/-- The fixed message shown when the response is ok but `data.result` is
not truthy. -/
def noResponseText : String := "Sorry, no response was received from the server."

/-- The fixed message of the catch branch of the submit handler. -/
def failureText : String := "Failed to get a response from the server. Please try again."

/-- `response.ok`: status in the 200-299 range. -/
def responseOk (status : Nat) : Bool :=
  200 ≤ status && status < 300

/-- The text the resolved relay call leaves in the placeholder bubble:
`data.result` when `data && data.result` is truthy (coerced by the
`textContent` assignment), the fixed no-response text when the response is
ok but the result is falsy, and the fixed failure text when the response
is not ok (the handler throws and lands in its catch) or the transport
rejected. -/
def placeholderFinalText (outcome : FetchOutcome) : String :=
  match outcome with
  | .networkError => failureText
  | .response status data =>
    if responseOk status then
      if data.truthy && (optField data "result").truthy then
        jsToString (optField data "result")
      else
        noResponseText
    else
      failureText

/-- Leading-whitespace removal, a building block of the trim model. -/
def jsWhitespaceDrop : List Char → List Char
  | [] => []
  | c :: cs => if c.isWhitespace then jsWhitespaceDrop cs else c :: cs

/-- Model of the JavaScript built-in `String.prototype.trim`: remove
leading and trailing whitespace.  Defined structurally on the character
list so concrete instances evaluate inside the kernel (the library
`String.trim` is defined by well-founded recursion on byte positions and
does not). -/
def jsTrim (s : String) : String :=
  String.mk ((jsWhitespaceDrop ((jsWhitespaceDrop s.data).reverse)).reverse)

/-- The synchronous prefix of the submit handler, up to the `await`:
trim the input; if empty, return (`none`); otherwise append the user
bubble, append the `Thinking...` placeholder keeping its position as the
retained element reference, clear the input, and build the request body
`{ messages: [{ role: 'user', content: userMessage }] }`.  Returns the
state at the suspension point, the placeholder position, and the request
body sent by `fetch`. -/
def submitPhase1 (st : UiState) : Option (UiState × Nat × JsValue) :=
  let userMessage := jsTrim st.inputValue
  if userMessage = "" then
    none
  else
    let afterUser := st.chatBox ++ [{ text := userMessage, sender := "user" }]
    let thinkingIndex := afterUser.length
    let afterThinking := afterUser ++ [{ text := thinkingText, sender := "bot" }]
    let requestBody : JsValue :=
      vObj [("messages", vArr [vObj [("role", vStr "user"), ("content", vStr userMessage)]])]
    some ({ chatBox := afterThinking, inputValue := "" }, thinkingIndex, requestBody)

/-- The continuation after the `fetch` promise settles: the retained
placeholder bubble has its `textContent` mutated in place. -/
def resolvePlaceholder (st : UiState) (idx : Nat) (outcome : FetchOutcome) : UiState :=
  { st with chatBox := st.chatBox.set idx { text := placeholderFinalText outcome, sender := "bot" } }

/-- One complete run of the submit handler: the synchronous prefix, the
settled fetch outcome, the placeholder mutation.  Returns the final UI
state and the request body sent, if any. -/
def handleSubmit (st : UiState) (outcome : FetchOutcome) : UiState × Option JsValue :=
  match submitPhase1 st with
  | none => (st, none)
  | some (st1, idx, requestBody) => (resolvePlaceholder st1 idx outcome, some requestBody)

/-! ## Helper lemmas -/

/-- Off the nullish values, plain property access agrees with
optional-chained access (and cannot throw). -/
theorem getFieldEx_of_not_nullish (msg : JsValue) (key : String)
    (h : msg.isNullish = false) :
    msg.getFieldEx key = Except.ok (optField msg key) := by
  cases msg <;> simp_all [JsValue.getFieldEx, JsValue.optField, JsValue.isNullish]

/-- On a non-nullish element, the handler's message mapping succeeds and
produces the spec-side turn. -/
theorem mapMessage_eq_turnOf (msg : JsValue) (h : msg.isNullish = false) :
    mapMessage msg = Except.ok (turnOf msg) := by
  unfold mapMessage
  rw [getFieldEx_of_not_nullish msg "role" h, getFieldEx_of_not_nullish msg "content" h]
  rfl

/-- On a list of non-nullish elements, the handler's mapping over messages
succeeds and produces the spec-side turn list (structural version). -/
theorem mapM'_mapMessage (msgs : List JsValue) :
    (∀ msg ∈ msgs, msg.isNullish = false) →
    List.mapM' mapMessage msgs = Except.ok (msgs.map turnOf) := by
  induction msgs with
  | nil => intro _; rfl
  | cons msg rest ih =>
    intro h
    have hmsg : msg.isNullish = false := h msg (List.mem_cons_self msg rest)
    have hrest : ∀ m ∈ rest, m.isNullish = false :=
      fun m hm => h m (List.mem_cons_of_mem msg hm)
    simp only [List.mapM']
    rw [mapMessage_eq_turnOf msg hmsg, ih hrest]
    rfl

/-- On a list of non-nullish elements, the handler's mapping over messages
succeeds and produces the spec-side turn list. -/
theorem mapM_mapMessage (msgs : List JsValue)
    (h : ∀ msg ∈ msgs, msg.isNullish = false) :
    msgs.mapM mapMessage = Except.ok (msgs.map turnOf) := by
  rw [← List.mapM'_eq_mapM]
  exact mapM'_mapMessage msgs h

/-- Setting the position right after a prefix replaces the appended
element. -/
theorem set_append_singleton {α : Type} (xs : List α) (a b : α) :
    (xs ++ [a]).set xs.length b = xs ++ [b] := by
  induction xs with
  | nil => rfl
  | cons x rest ih => simp [List.set, ih]

/-- `extractText` implements the spec's ordered-fallback policy. -/
theorem extractText_eq_specExtract (resp : JsValue) :
    extractText resp = specExtract resp := by
  unfold extractText specExtract pathOne pathTwo pathThree JsValue.coalesce
  split_ifs <;> simp_all

/-! ## Claim-specific definitions -/

/-- A stub external API behaviour used to instantiate the handler at
concrete inputs: it resolves with an empty object. -/
def apiStub : List JsValue → Except String JsValue := fun _ => Except.ok (vObj [])

/-- An external API behaviour that rejects with a fixed message. -/
def apiReject : List JsValue → Except String JsValue := fun _ => Except.error "quota exceeded"

/-- A response whose extraction path 1 holds a number instead of a string. -/
def respNumericText : JsValue :=
  vObj [("response",
    vObj [("candidate",
      vArr [vObj [("content",
        vObj [("part", vArr [vObj [("text", vNum 42)]])])]])])]

/-- A response matching extraction path 1 with text `"hello"`. -/
def respPathOneHello : JsValue :=
  vObj [("response",
    vObj [("candidate",
      vArr [vObj [("content",
        vObj [("part", vArr [vObj [("text", vStr "hello")]])])]])])]

/-- The well-formed message shape of the claims: an object pairing a role
string with a content string. -/
def isRoleContentObj (msg : JsValue) : Bool :=
  match msg with
  | vObj [("role", vStr _), ("content", vStr _)] => true
  | _ => false

/-- A well-formed message shape implies the element is not nullish. -/
theorem isRoleContentObj_not_nullish (msg : JsValue) (h : isRoleContentObj msg = true) :
    msg.isNullish = false := by
  cases msg <;> simp_all [isRoleContentObj, JsValue.isNullish]

/-- A sample well-formed chat message. -/
def sampleMsg : JsValue := vObj [("role", vStr "user"), ("content", vStr "Hi")]

/-- A sample valid request body carrying `sampleMsg`. -/
def sampleBody : JsValue := vObj [("messages", vArr [sampleMsg])]

/-! ## C1 -/

/-- C1 counterexample: with `messages: null` the handler issues no API
call and answers with `{ error: message }`, but the status is 500, not a
400-class status as the claim states. -/
theorem c1_counterexample :
    (postApiChat apiStub (vObj [("messages", vNull)])).response.status = 500 ∧
    ¬(400 ≤ (postApiChat apiStub (vObj [("messages", vNull)])).response.status ∧
      (postApiChat apiStub (vObj [("messages", vNull)])).response.status < 500) ∧
    (postApiChat apiStub (vObj [("messages", vNull)])).apiCalls = [] :=
  ⟨rfl, by decide, rfl⟩

/-- C1 (amended): for every request body whose `messages` field is not an
array, the handler issues no external API call and responds with HTTP 500
and body `{ error: message }`. -/
theorem c1_invalid_messages_rejected (api : List JsValue → Except String JsValue)
    (body : JsValue) (h : messagesIsArray body = false) :
    (postApiChat api body).apiCalls = [] ∧
    (postApiChat api body).response.status = 500 ∧
    ∃ m, (postApiChat api body).response.body = vObj [("error", vStr m)] := by
  unfold messagesIsArray at h
  unfold postApiChat
  cases hm : body.getFieldEx "messages" with
  | error e =>
    simp only [hm]
    exact ⟨rfl, rfl, ⟨if e = "" then "Internal Server Error" else e, rfl⟩⟩
  | ok messages =>
    rw [hm] at h
    cases messages <;> simp only [hm] <;>
      first
        | exact ⟨rfl, rfl, ⟨invalidMessagesMsg, rfl⟩⟩
        | simp_all

/-- C1 witness: the amended theorem applied at `messages: null`. -/
theorem c1_invalid_messages_rejected_witness :
    messagesIsArray (vObj [("messages", vNull)]) = false ∧
    ((postApiChat apiStub (vObj [("messages", vNull)])).apiCalls = [] ∧
     (postApiChat apiStub (vObj [("messages", vNull)])).response.status = 500 ∧
     ∃ m, (postApiChat apiStub (vObj [("messages", vNull)])).response.body = vObj [("error", vStr m)]) :=
  ⟨rfl, c1_invalid_messages_rejected apiStub (vObj [("messages", vNull)]) rfl⟩

/-! ## C2 -/

/-- C2: for every valid request body whose `messages` field is a non-empty
array of role/content objects, the handler issues exactly one external API
call, with the fixed model identifier, whose turn list has the length of
`messages`, preserves order, and maps the i-th message to a turn pairing
its role with a singleton parts list holding its content. -/
theorem c2_relay_call_shape (api : List JsValue → Except String JsValue)
    (body : JsValue) (msgs : List JsValue)
    (hmsgs : body.getFieldEx "messages" = Except.ok (vArr msgs))
    (_hne : msgs ≠ [])
    (hwf : ∀ msg ∈ msgs, isRoleContentObj msg = true) :
    GEMINI_MODEL = "gemini-2.5-flash" ∧
    (postApiChat api body).apiCalls = [{ model := GEMINI_MODEL, contents := msgs.map turnOf }] ∧
    ∀ call ∈ (postApiChat api body).apiCalls,
      call.model = GEMINI_MODEL ∧
      call.contents.length = msgs.length ∧
      ∀ i : Fin msgs.length, ∃ hi : i.val < call.contents.length,
        call.contents.get ⟨i.val, hi⟩ = turnOf (msgs.get i) := by
  have hnn : ∀ msg ∈ msgs, msg.isNullish = false :=
    fun msg hm => isRoleContentObj_not_nullish msg (hwf msg hm)
  have hmap := mapM_mapMessage msgs hnn
  have hcalls : (postApiChat api body).apiCalls
      = [{ model := GEMINI_MODEL, contents := msgs.map turnOf }] := by
    unfold postApiChat
    simp only [hmsgs, hmap]
    cases api (msgs.map turnOf) <;> rfl
  refine ⟨rfl, hcalls, ?_⟩
  intro call hcall
  rw [hcalls, List.mem_singleton] at hcall
  subst hcall
  refine ⟨rfl, by simp, ?_⟩
  intro i
  refine ⟨by simp [i.isLt], ?_⟩
  simp [List.get_eq_getElem, List.getElem_map]

/-- C2 witness: the theorem applied to a singleton user message. -/
theorem c2_relay_call_shape_witness :
    sampleBody.getFieldEx "messages" = Except.ok (vArr [sampleMsg]) ∧
    [sampleMsg] ≠ ([] : List JsValue) ∧
    (∀ msg ∈ [sampleMsg], isRoleContentObj msg = true) ∧
    (GEMINI_MODEL = "gemini-2.5-flash" ∧
     (postApiChat apiStub sampleBody).apiCalls
        = [{ model := GEMINI_MODEL, contents := [sampleMsg].map turnOf }] ∧
     ∀ call ∈ (postApiChat apiStub sampleBody).apiCalls,
       call.model = GEMINI_MODEL ∧
       call.contents.length = [sampleMsg].length ∧
       ∀ i : Fin [sampleMsg].length, ∃ hi : i.val < call.contents.length,
         call.contents.get ⟨i.val, hi⟩ = turnOf ([sampleMsg].get i)) :=
  ⟨rfl, by simp, by simp [sampleMsg, isRoleContentObj],
   c2_relay_call_shape apiStub sampleBody [sampleMsg] rfl (by simp)
     (by simp [sampleMsg, isRoleContentObj])⟩

/-! ## C3 -/

/-- C3 counterexample: a response whose first extraction path holds the
number 42; `extractText` returns that number, so it does produce a value
that is not a string. -/
theorem c3_counterexample :
    (pathOne respNumericText).isNullish = false ∧
    extractText respNumericText = vNum 42 ∧
    (extractText respNumericText).isString = false :=
  ⟨rfl, rfl, rfl⟩

/-- C3 (amended): the extraction function is total and implements the
ordered-fallback policy: it tries the three known nesting paths in
priority order and returns the first defined value; when no path yields a
defined value it returns the whole raw response serialized to a string
(for every response other than the bare `undefined` value, on which
`JSON.stringify` itself evaluates to `undefined`). -/
theorem c3_extraction_policy (resp : JsValue) :
    extractText resp = specExtract resp ∧
    ((pathOne resp).isNullish = true → (pathTwo resp).isNullish = true →
      (pathThree resp).isNullish = true → resp ≠ vUndefined →
      ∃ s, extractText resp = vStr s) := by
  refine ⟨extractText_eq_specExtract resp, ?_⟩
  intro h1 h2 h3 hne
  rw [extractText_eq_specExtract resp]
  unfold specExtract
  rw [h1, h2, h3]
  simp only [Bool.true_eq_false, if_false]
  refine ⟨jsonSerialize resp, ?_⟩
  cases resp <;> first | exact absurd rfl hne | rfl

/-- C3 witness: on the empty object no path is defined and the fallback
produces a string. -/
theorem c3_extraction_policy_witness :
    (pathOne (vObj [])).isNullish = true ∧
    (pathTwo (vObj [])).isNullish = true ∧
    (pathThree (vObj [])).isNullish = true ∧
    (∃ s, extractText (vObj []) = vStr s) :=
  ⟨rfl, rfl, rfl,
   (c3_extraction_policy (vObj [])).2 rfl rfl rfl (fun h => JsValue.noConfusion h)⟩

/-! ## C4 -/

/-- C4: for every external API response matching extraction path 1 with
text `s`, a handler run that reaches the API call and receives that
response answers 200 with body `{ result: s }`. -/
theorem c4_path_one_result (api : List JsValue → Except String JsValue)
    (body : JsValue) (msgs : List JsValue) (s : String) (resp : JsValue)
    (hmsgs : body.getFieldEx "messages" = Except.ok (vArr msgs))
    (hwf : ∀ msg ∈ msgs, msg.isNullish = false)
    (hapi : api (msgs.map turnOf) = Except.ok resp)
    (hpath : pathOne resp = vStr s) :
    (postApiChat api body).response.status = 200 ∧
    (postApiChat api body).response.body = vObj [("result", vStr s)] := by
  have hmap := mapM_mapMessage msgs hwf
  have hext : extractText resp = vStr s := by
    rw [extractText_eq_specExtract resp]
    unfold specExtract
    rw [hpath]
    rfl
  unfold postApiChat
  simp only [hmsgs, hmap, hapi]
  simp [hext]

/-- C4 witness: the theorem applied to a concrete path-1 response carrying
`"hello"`. -/
theorem c4_path_one_result_witness :
    pathOne respPathOneHello = vStr "hello" ∧
    ((postApiChat (fun _ => Except.ok respPathOneHello) sampleBody).response.status = 200 ∧
     (postApiChat (fun _ => Except.ok respPathOneHello) sampleBody).response.body
        = vObj [("result", vStr "hello")]) :=
  ⟨rfl,
   c4_path_one_result (fun _ => Except.ok respPathOneHello) sampleBody [sampleMsg]
     "hello" respPathOneHello rfl
     (by simp [sampleMsg, JsValue.isNullish]) rfl rfl⟩

/-! ## C5 -/

/-- C5: whenever the external API call rejects, a handler run that reaches
the call responds 500 with body `{ error: message }` and logs the failure;
it returns normally (the embedding is a total function, so the process
does not crash). -/
theorem c5_api_failure_500 (api : List JsValue → Except String JsValue)
    (body : JsValue) (msgs : List JsValue) (m : String)
    (hmsgs : body.getFieldEx "messages" = Except.ok (vArr msgs))
    (hwf : ∀ msg ∈ msgs, msg.isNullish = false)
    (hapi : api (msgs.map turnOf) = Except.error m) :
    (postApiChat api body).response.status = 500 ∧
    (∃ em, (postApiChat api body).response.body = vObj [("error", vStr em)]) ∧
    (postApiChat api body).logs ≠ [] := by
  have hmap := mapM_mapMessage msgs hwf
  unfold postApiChat
  simp only [hmsgs, hmap, hapi]
  exact ⟨rfl, ⟨if m = "" then "Internal Server Error" else m, rfl⟩, by simp [catchBranch]⟩

/-- C5 witness: the theorem applied to a rejecting API stub. -/
theorem c5_api_failure_500_witness :
    apiReject ([sampleMsg].map turnOf) = Except.error "quota exceeded" ∧
    ((postApiChat apiReject sampleBody).response.status = 500 ∧
     (∃ em, (postApiChat apiReject sampleBody).response.body = vObj [("error", vStr em)]) ∧
     (postApiChat apiReject sampleBody).logs ≠ []) :=
  ⟨rfl,
   c5_api_failure_500 apiReject sampleBody [sampleMsg] "quota exceeded" rfl
     (by simp [sampleMsg, JsValue.isNullish]) rfl⟩

/-! ## C9 -/

/-- C9 counterexample: an array containing `null` is not forwarded: the
element access `msg.role` throws, so no API call is issued and the handler
answers 500. -/
theorem c9_counterexample :
    (postApiChat apiStub (vObj [("messages", vArr [vNull])])).apiCalls = [] ∧
    (postApiChat apiStub (vObj [("messages", vArr [vNull])])).response.status = 500 :=
  ⟨rfl, rfl⟩

/-- C9 (amended): for every request body whose `messages` field is an
array of non-nullish elements, the handler issues the external API call
without validating element shape: each element is mapped to a turn pairing
its `role` property (possibly undefined) with a singleton parts list
holding its `content` property (possibly undefined), and the whole mapped
list is forwarded. -/
theorem c9_unvalidated_elements_forwarded (api : List JsValue → Except String JsValue)
    (body : JsValue) (msgs : List JsValue)
    (hmsgs : body.getFieldEx "messages" = Except.ok (vArr msgs))
    (hwf : ∀ msg ∈ msgs, msg.isNullish = false) :
    (postApiChat api body).apiCalls = [{ model := GEMINI_MODEL, contents := msgs.map turnOf }] := by
  have hmap := mapM_mapMessage msgs hwf
  unfold postApiChat
  simp only [hmsgs, hmap]
  cases api (msgs.map turnOf) <;> rfl

/-- C9 witness: a number, a string and an empty object are all forwarded,
mapped to turns with undefined role and text. -/
theorem c9_unvalidated_elements_forwarded_witness :
    (∀ msg ∈ [vNum 5, vStr "x", vObj []], msg.isNullish = false) ∧
    turnOf (vNum 5) = vObj [("role", vUndefined), ("parts", vArr [vObj [("text", vUndefined)]])] ∧
    (postApiChat apiStub (vObj [("messages", vArr [vNum 5, vStr "x", vObj []])])).apiCalls
      = [{ model := GEMINI_MODEL, contents := [vNum 5, vStr "x", vObj []].map turnOf }] :=
  ⟨by simp [JsValue.isNullish], rfl,
   c9_unvalidated_elements_forwarded apiStub (vObj [("messages", vArr [vNum 5, vStr "x", vObj []])])
     [vNum 5, vStr "x", vObj []] rfl (by simp [JsValue.isNullish])⟩


/-! ## Client-side helper lemmas and sample states -/

/-- On a non-empty trimmed input the synchronous submit prefix returns the
two appended bubbles, the placeholder position and the request body. -/
theorem submitPhase1_eq_some (st : UiState) (h : jsTrim st.inputValue ≠ "") :
    submitPhase1 st = some
      ({ chatBox := (st.chatBox ++ [{ text := jsTrim st.inputValue, sender := "user" }]) ++
            [{ text := thinkingText, sender := "bot" }],
         inputValue := "" },
       (st.chatBox ++ [Bubble.mk (jsTrim st.inputValue) "user"]).length,
       vObj [("messages",
         vArr [vObj [("role", vStr "user"), ("content", vStr (jsTrim st.inputValue))]])]) := by
  unfold submitPhase1
  dsimp only
  rw [if_neg h]

/-- On an empty trimmed input the synchronous submit prefix does nothing. -/
theorem submitPhase1_eq_none (st : UiState) (h : jsTrim st.inputValue = "") :
    submitPhase1 st = none := by
  unfold submitPhase1
  dsimp only
  rw [if_pos h]

/-- The complete submit run, phrased through the synchronous prefix. -/
theorem handleSubmit_of_some (st st1 : UiState) (idx : Nat) (req : JsValue)
    (out : FetchOutcome) (h : submitPhase1 st = some (st1, idx, req)) :
    handleSubmit st out = (resolvePlaceholder st1 idx out, some req) := by
  unfold handleSubmit
  rw [h]

/-- A UI state with input "Hi" and an empty chat box. -/
def uiHi : UiState := { chatBox := [], inputValue := "Hi" }

/-- A UI state with input "Yo" and an empty chat box. -/
def uiYo : UiState := { chatBox := [], inputValue := "Yo" }

/-- A UI state with the padded input " Hi ". -/
def uiSpacedHi : UiState := { chatBox := [], inputValue := " Hi " }

/-- A UI state with whitespace-only input and one existing bubble. -/
def uiBlank : UiState :=
  { chatBox := [{ text := "a", sender := "user" }], inputValue := "   " }

/-- A UI state with two prior conversation bubbles and the input " Hi ". -/
def uiPrior : UiState :=
  { chatBox := [{ text := "old", sender := "user" }, { text := "older", sender := "bot" }],
    inputValue := " Hi " }

/-- A success outcome carrying `{ result: "Hello!" }`. -/
def outHello : FetchOutcome := FetchOutcome.response 200 (vObj [("result", vStr "Hello!")])

/-- A success outcome carrying `{ result: "" }`: the result field is
present but holds the empty string. -/
def outEmptyResult : FetchOutcome := FetchOutcome.response 200 (vObj [("result", vStr "")])

/-! ## C6 -/

/-- C6 counterexample: an ok response whose `result` field is present but
holds the empty string; the placeholder is set to the fixed no-response
message, not to the returned (empty) result, although the field is not
absent. -/
theorem c6_counterexample :
    (handleSubmit uiHi outEmptyResult).1.chatBox =
      [{ text := "Hi", sender := "user" }, { text := noResponseText, sender := "bot" }] ∧
    optField (vObj [("result", vStr "")]) "result" = vStr "" ∧
    noResponseText ≠ "" :=
  ⟨rfl, rfl, by decide⟩

/-- C6 (amended): for every non-empty submission, the placeholder bubble
is mutated in place: on a success response its text becomes the coerced
`result` value when `data && data.result` is truthy and the fixed
no-response message when that conjunction is falsy (result absent, or
falsy such as the empty string); on a non-success status or transport
error it becomes the fixed failure message. -/
theorem c6_placeholder_texts (st : UiState) (out : FetchOutcome)
    (h : jsTrim st.inputValue ≠ "") :
    ∃ t : String,
      (handleSubmit st out).1.chatBox =
        st.chatBox ++
          [{ text := jsTrim st.inputValue, sender := "user" }, { text := t, sender := "bot" }] ∧
      (∀ status data, out = FetchOutcome.response status data → responseOk status = true →
        ((data.truthy && (optField data "result").truthy) = true →
            t = jsToString (optField data "result")) ∧
        ((data.truthy && (optField data "result").truthy) = false → t = noResponseText)) ∧
      (∀ status data, out = FetchOutcome.response status data → responseOk status = false →
          t = failureText) ∧
      (out = FetchOutcome.networkError → t = failureText) := by
  refine ⟨placeholderFinalText out, ?_, ?_, ?_, ?_⟩
  · rw [handleSubmit_of_some st _ _ _ out (submitPhase1_eq_some st h)]
    unfold resolvePlaceholder
    dsimp only
    rw [set_append_singleton]
    simp
  · intro status data hout hok
    subst hout
    refine ⟨fun htr => ?_, fun htr => ?_⟩ <;> simp [placeholderFinalText, hok, htr]
  · intro status data hout hnok
    subst hout
    simp [placeholderFinalText, hnok]
  · intro hout
    subst hout
    rfl

/-- C6 witness: the amended theorem applied to a success response with a
truthy result. -/
theorem c6_placeholder_texts_witness :
    jsTrim uiHi.inputValue ≠ "" ∧
    (∃ t : String,
      (handleSubmit uiHi outHello).1.chatBox =
        uiHi.chatBox ++
          [{ text := jsTrim uiHi.inputValue, sender := "user" }, { text := t, sender := "bot" }] ∧
      (∀ status data, outHello = FetchOutcome.response status data → responseOk status = true →
        ((data.truthy && (optField data "result").truthy) = true →
            t = jsToString (optField data "result")) ∧
        ((data.truthy && (optField data "result").truthy) = false → t = noResponseText)) ∧
      (∀ status data, outHello = FetchOutcome.response status data → responseOk status = false →
          t = failureText) ∧
      (outHello = FetchOutcome.networkError → t = failureText)) :=
  ⟨by decide, c6_placeholder_texts uiHi outHello (by decide)⟩

/-! ## C7 -/

/-- C7 counterexample: submitting "Yo" with the relay resolving
`{ result: "" }` leaves the bot bubble at the fixed no-response message,
not at the returned result `""`. -/
theorem c7_counterexample :
    (handleSubmit uiYo outEmptyResult).1.chatBox.get? 1 =
      some { text := noResponseText, sender := "bot" } ∧
    (handleSubmit uiYo outEmptyResult).1.chatBox.get? 1 ≠
      some { text := "", sender := "bot" } :=
  ⟨rfl, by decide⟩

/-- C7 (amended): a non-empty submission appends, in order, a user bubble
with the trimmed text and a bot bubble with the fixed Thinking text; when
the relay resolves with `{ result: r }` for a non-empty `r`, that same
bubble's text is replaced with `r` in place and the bubble count is
unchanged by the resolution. -/
theorem c7_thinking_then_replace (st : UiState) (r : String)
    (h : jsTrim st.inputValue ≠ "") (hr : r ≠ "") :
    ∃ st1 idx req,
      submitPhase1 st = some (st1, idx, req) ∧
      st1.chatBox = st.chatBox ++
        [{ text := jsTrim st.inputValue, sender := "user" },
         { text := thinkingText, sender := "bot" }] ∧
      (resolvePlaceholder st1 idx (FetchOutcome.response 200 (vObj [("result", vStr r)]))).chatBox =
        st.chatBox ++
          [{ text := jsTrim st.inputValue, sender := "user" }, { text := r, sender := "bot" }] ∧
      (resolvePlaceholder st1 idx
          (FetchOutcome.response 200 (vObj [("result", vStr r)]))).chatBox.length =
        st1.chatBox.length := by
  have hfinal :
      placeholderFinalText (FetchOutcome.response 200 (vObj [("result", vStr r)])) = r := by
    simp [placeholderFinalText, responseOk, JsValue.truthy, JsValue.optField,
      JsValue.lookupField, JsValue.jsToString, hr]
  refine ⟨_, _, _, submitPhase1_eq_some st h, by simp, ?_, ?_⟩
  · unfold resolvePlaceholder
    dsimp only
    rw [hfinal, set_append_singleton]
    simp
  · unfold resolvePlaceholder
    simp

/-- C7 witness: the amended theorem applied to input " Hi " and result
"Hello!". -/
theorem c7_thinking_then_replace_witness :
    jsTrim uiSpacedHi.inputValue ≠ "" ∧
    ("Hello!" : String) ≠ "" ∧
    (∃ st1 idx req,
      submitPhase1 uiSpacedHi = some (st1, idx, req) ∧
      st1.chatBox = uiSpacedHi.chatBox ++
        [{ text := jsTrim uiSpacedHi.inputValue, sender := "user" },
         { text := thinkingText, sender := "bot" }] ∧
      (resolvePlaceholder st1 idx
          (FetchOutcome.response 200 (vObj [("result", vStr "Hello!")]))).chatBox =
        uiSpacedHi.chatBox ++
          [{ text := jsTrim uiSpacedHi.inputValue, sender := "user" },
           { text := "Hello!", sender := "bot" }] ∧
      (resolvePlaceholder st1 idx
          (FetchOutcome.response 200 (vObj [("result", vStr "Hello!")]))).chatBox.length =
        st1.chatBox.length) :=
  ⟨by decide, by decide, c7_thinking_then_replace uiSpacedHi "Hello!" (by decide) (by decide)⟩

/-! ## C8 -/

/-- C8: a submission whose input is empty after trimming creates no
bubbles, issues no network call and leaves the UI state unchanged. -/
theorem c8_empty_input_ignored (st : UiState) (out : FetchOutcome)
    (h : jsTrim st.inputValue = "") :
    submitPhase1 st = none ∧ handleSubmit st out = (st, none) := by
  have h1 : submitPhase1 st = none := submitPhase1_eq_none st h
  refine ⟨h1, ?_⟩
  unfold handleSubmit
  rw [h1]

/-- C8 witness: the theorem applied to a whitespace-only input. -/
theorem c8_empty_input_ignored_witness :
    jsTrim uiBlank.inputValue = "" ∧
    (submitPhase1 uiBlank = none ∧
     handleSubmit uiBlank FetchOutcome.networkError = (uiBlank, none)) :=
  ⟨by decide, c8_empty_input_ignored uiBlank FetchOutcome.networkError (by decide)⟩

/-! ## C10 -/

/-- C10: every non-empty submission sends exactly
`{ messages: [{ role: "user", content: t }] }` with `t` the trimmed input;
no prior conversation turns are included. -/
theorem c10_request_is_singleton_user_turn (st : UiState) (out : FetchOutcome)
    (h : jsTrim st.inputValue ≠ "") :
    (handleSubmit st out).2 =
      some (vObj [("messages",
        vArr [vObj [("role", vStr "user"), ("content", vStr (jsTrim st.inputValue))]])]) := by
  rw [handleSubmit_of_some st _ _ _ out (submitPhase1_eq_some st h)]

/-- C10 witness: the theorem applied at input " Hi " with two prior
conversation bubbles displayed. -/
theorem c10_request_is_singleton_user_turn_witness :
    jsTrim uiPrior.inputValue ≠ "" ∧
    (handleSubmit uiPrior FetchOutcome.networkError).2 =
      some (vObj [("messages",
        vArr [vObj [("role", vStr "user"), ("content", vStr (jsTrim uiPrior.inputValue))]])]) :=
  ⟨by decide, c10_request_is_singleton_user_turn uiPrior FetchOutcome.networkError (by decide)⟩
